import Mathlib

/-
Verification of the semantic-analysis pass in src/SemanticAnalyzer.cpp
(repository GeGuNa/Semantics-Analyzer), as a shallow embedding.

Modelling conventions, each noted again at its definition:
- C++ exceptions become an explicit `Except` result; because a C++ throw
  leaves all mutations made so far in place on the analyzer object, every
  analyzer operation returns the (possibly error) result TOGETHER with the
  state at the moment of the throw: `Except AnalyzerError α × AState`.
- `std::vector<std::map<...>> scope_stack` becomes a `List` of association
  lists whose HEAD is the vector's back (the innermost scope), so the
  source's reverse iteration in `find_symbol` is plain head-to-tail order.
- `std::shared_ptr` arguments that the source null-tests become `Option`.
- Fields the source leaves default-constructed (indeterminate `int`/`bool`
  members of `TypeInfo` inside a fresh `Symbol`) are modelled as `0`/`false`.
-/

set_option autoImplicit false

namespace SemanticsAnalyzer

/-- enum class SymbolType (src/SemanticAnalyzer.cpp lines 7-11). -/
inductive SymbolType where
  | Variable
  | Constant
  | Function
deriving DecidableEq, Repr

/-- enum class TypeKind (src/SemanticAnalyzer.cpp lines 13-15). -/
inductive TypeKind where
  | Int
  | Float
  | String
  | Bool
  | Auto
  | Unknown
deriving DecidableEq, Repr

/-- struct TypeInfo (src/SemanticAnalyzer.cpp lines 17-28). `width` is a C++
`int`, modelled as `Int` (its values here are small and never overflow). -/
structure TypeInfo where
  kind : TypeKind
  width : Int
  is_signed : Bool
  is_mutable : Bool
deriving DecidableEq, Repr

/-- struct Symbol (src/SemanticAnalyzer.cpp lines 30-36). -/
structure Symbol where
  name : String
  symbol_type : SymbolType
  type_info : TypeInfo
  is_initialized : Bool
  declaration_line : Int
deriving DecidableEq, Repr

/-- The analyzer's failure channel. The source throws three distinct C++
exception types, which the embedding keeps apart:
`semantic` is `SemanticError(msg, line)` (lines 38-43, the only one carrying
a source line), `runtime` is `std::runtime_error` (thrown by `parse_type`,
line 310), `logic` is `std::logic_error` (thrown by `exit_scope`, line 71). -/
inductive AnalyzerError where
  | semantic (msg : String) (line : Int)
  | runtime (msg : String)
  | logic (msg : String)
deriving DecidableEq, Repr

/-- The source line an error value carries: only `SemanticError` has a
`line` member; the two `std::` exception types carry a message alone. -/
def AnalyzerError.lineOf : AnalyzerError → Option Int
  | .semantic _ l => some l
  | .runtime _ => none
  | .logic _ => none

/-- Modelled from the spec (section 6) and src/main.cpp: the AST node classes
are not part of the repository's sources (only the analyzer and its driver
are), so the node family is reconstructed from the spec's closed list of
kinds and the fields the two source files access. `ParameterNode` carries
`name`, a type spelling, and a line. -/
structure ParameterNode where
  name : String
  ty : String
  line : Int
deriving DecidableEq, Repr

/-- Modelled from the spec: expression nodes (spec sections 4.5 and 6); the
driver src/main.cpp builds an `IntegerLiteralNode(42)`. The analyzer's
`visit_expression` never inspects the expression, so one representative
literal constructor suffices for every behaviour the source exhibits. -/
inductive ExpressionNode where
  | integerLiteral (value : Int)
deriving DecidableEq, Repr

/-- Modelled from the spec: fields of a let declaration node as accessed by
`visit_let_decl` (name, optional type spelling, optional initializer, line). -/
structure LetDeclarationNode where
  name : String
  type_annotation : Option String
  initializer : Option ExpressionNode
  line : Int
deriving DecidableEq, Repr

/-- Modelled from the spec: fields of a var declaration node as accessed by
`visit_var_decl`. -/
structure VarDeclarationNode where
  name : String
  type_annotation : Option String
  initializer : Option ExpressionNode
  line : Int
deriving DecidableEq, Repr

/-- Modelled from the spec: fields of a const declaration node as accessed by
`visit_const_decl`. -/
structure ConstDeclarationNode where
  name : String
  type_annotation : Option String
  initializer : Option ExpressionNode
  line : Int
deriving DecidableEq, Repr

/-- Modelled from the spec: the AST node family, a closed set of variants
tagged by kind (spec sections 3 and 6). The dispatcher in the source
switches on `node->kind`; the kinds with a registered handler are Function,
LetDeclaration, VarDeclaration and ConstDeclaration (lines 90-108), and the
spec's closed set additionally holds Parameter and expression variants.
A function body is a vector of possibly-null statement pointers, modelled
as `List (Option ASTNode)`. -/
inductive ASTNode where
  | function (name : String) (return_type : String) (parameters : List ParameterNode)
      (body : List (Option ASTNode)) (line : Int)
  | letDecl (d : LetDeclarationNode)
  | varDecl (d : VarDeclarationNode)
  | constDecl (d : ConstDeclarationNode)
  | param (p : ParameterNode)
  | expr (e : ExpressionNode) (line : Int)
deriving Repr

/-- One scope: `std::map<std::string, Symbol>`, modelled as an association
list. The analyzer only uses `count`, `find` and `operator[]`, none of which
depends on the map's ordering. -/
abbrev Scope := List (String × Symbol)

/-- `scope.find(name)` as the source uses it (lines 79-81). -/
def Scope.find : Scope → String → Option Symbol
  | [], _ => none
  | (n, sym) :: rest, name => if n = name then some sym else Scope.find rest name

/-- `scope.count(name)` (nonzero exactly when the name is bound). -/
def Scope.contains (s : Scope) (name : String) : Bool :=
  (Scope.find s name).isSome

/-- `scope[name] = sym`: `std::map::operator[]` assigns the bound entry or
inserts a fresh one. -/
def Scope.set : Scope → String → Symbol → Scope
  | [], name, sym => [(name, sym)]
  | (n, s0) :: rest, name, sym =>
      if n = name then (n, sym) :: rest else (n, s0) :: Scope.set rest name sym

/-- The analyzer's mutable members (src/SemanticAnalyzer.cpp lines 45-49):
`scope_stack` (head = the vector's back = innermost scope),
`current_return_type` (default-constructed and never read before first
assignment in the source, modelled as `none` until assigned) and
`in_function`. The member `symbol_table` is declared on line 46 but never
accessed by any method, so it is omitted. -/
structure AState where
  scope_stack : List Scope
  current_return_type : Option TypeInfo
  in_function : Bool
deriving DecidableEq, Repr

/-- `scope_stack.back()`: the innermost scope. The source never calls it on
an empty vector starting from a constructed analyzer; the empty case is
given the vector's size-zero content as a harmless default. -/
def AState.cur (st : AState) : Scope :=
  st.scope_stack.headD []

/-- Writing through `scope_stack.back()`: replace the innermost scope.
On an empty stack `back()` is undefined in C++; unreachable from
`initState`, modelled as a no-op. -/
def AState.setCur (st : AState) (s : Scope) : AState :=
  { st with scope_stack :=
      match st.scope_stack with
      | [] => []
      | _ :: rest => s :: rest }

/-- enter_scope (lines 65-67): push an empty scope. -/
def enter_scope (st : AState) : AState :=
  { st with scope_stack := ([] : Scope) :: st.scope_stack }

/-- exit_scope (lines 69-74): pop the innermost scope, or throw
`std::logic_error("Scope stack underflow")` on an empty stack. -/
def exit_scope (st : AState) : Except AnalyzerError Unit × AState :=
  match st.scope_stack with
  | [] => (.error (.logic "Scope stack underflow"), st)
  | _ :: rest => (.ok (), { st with scope_stack := rest })

/-- The scan of find_symbol over a scope list, innermost first. -/
def find_symbol_in : List Scope → String → Option Symbol
  | [], _ => none
  | s :: rest, name =>
      match Scope.find s name with
      | some sym => some sym
      | none => find_symbol_in rest name

/-- find_symbol (lines 76-85): scan scopes from innermost to outermost and
return the first binding of `name`. -/
def find_symbol (st : AState) (name : String) : Option Symbol :=
  find_symbol_in st.scope_stack name

/-- The analyzer as constructed (lines 52-58): one (global) scope pushed,
no other state set. -/
def initState : AState :=
  { scope_stack := [([] : Scope)], current_return_type := none, in_function := false }

/-- parse_type (lines 292-311): the closed catalog of type spellings; any
other spelling throws `std::runtime_error("Unknown type: " + type_name)`. -/
def parse_type (type_name : String) : Except AnalyzerError TypeInfo :=
  if type_name = "i8" then .ok ⟨.Int, 8, true, false⟩ else
  if type_name = "u8" then .ok ⟨.Int, 8, false, false⟩ else
  if type_name = "i16" then .ok ⟨.Int, 16, true, false⟩ else
  if type_name = "u16" then .ok ⟨.Int, 16, false, false⟩ else
  if type_name = "i32" then .ok ⟨.Int, 32, true, false⟩ else
  if type_name = "u32" then .ok ⟨.Int, 32, false, false⟩ else
  if type_name = "i64" then .ok ⟨.Int, 64, true, false⟩ else
  if type_name = "u64" then .ok ⟨.Int, 64, false, false⟩ else
  if type_name = "i128" then .ok ⟨.Int, 128, true, false⟩ else
  if type_name = "u128" then .ok ⟨.Int, 128, false, false⟩ else
  if type_name = "f32" then .ok ⟨.Float, 32, true, false⟩ else
  if type_name = "f64" then .ok ⟨.Float, 64, true, false⟩ else
  if type_name = "str" then .ok ⟨.String, 0, false, false⟩ else
  if type_name = "string" then .ok ⟨.String, 0, false, false⟩ else
  if type_name = "bool" then .ok ⟨.Bool, 0, false, false⟩ else
  if type_name = "auto" then .ok ⟨.Auto, 0, false, false⟩ else
  .error (.runtime ("Unknown type: " ++ type_name))

/-- types_compatible (lines 313-323). -/
def types_compatible (expected actual : TypeInfo) : Bool :=
  if expected.kind = TypeKind.Auto then true
  else if expected.kind ≠ actual.kind then false
  else if expected.kind = TypeKind.Int ∨ expected.kind = TypeKind.Float then
    expected.width = actual.width ∧ expected.is_signed = actual.is_signed
  else true

/-- visit_expression (lines 286-290): a stub that ignores the expression and
returns `TypeInfo{TypeKind::Unknown, 0, false, false}`. It reads and writes
no analyzer state and cannot throw. -/
def visit_expression (_e : ExpressionNode) : TypeInfo :=
  ⟨.Unknown, 0, false, false⟩

/-- The type a declaration handler gives `sym.type_info` before looking at
the initializer: the parsed annotation when one is present (which may
throw), else kind `Auto` (lines 173-177; the other `TypeInfo` fields stay
default-constructed, modelled as `0`/`false`). -/
def resolve_annotation (ann : Option String) : Except AnalyzerError TypeInfo :=
  match ann with
  | some t => parse_type t
  | none => .ok ⟨.Auto, 0, false, false⟩

/-- visit_let_decl (lines 161-202). -/
def visit_let_decl (st : AState) (d : LetDeclarationNode) :
    Except AnalyzerError Unit × AState :=
  if Scope.contains st.cur d.name then
    (.error (.semantic ("Duplicate variable name '" ++ d.name ++ "'") d.line), st)
  else
    match resolve_annotation d.type_annotation with
    | .error e => (.error e, st)
    | .ok ti =>
      match d.initializer with
      | some ie =>
        let init_type := visit_expression ie
        if ti.kind = TypeKind.Auto then
          let sym : Symbol :=
            { name := d.name, symbol_type := .Variable,
              type_info := { init_type with is_mutable := false },
              is_initialized := true, declaration_line := d.line }
          (.ok (), st.setCur (Scope.set st.cur d.name sym))
        else if types_compatible ti init_type then
          let sym : Symbol :=
            { name := d.name, symbol_type := .Variable,
              type_info := { ti with is_mutable := false },
              is_initialized := true, declaration_line := d.line }
          (.ok (), st.setCur (Scope.set st.cur d.name sym))
        else
          (.error (.semantic "Type mismatch in let declaration" d.line), st)
      | none =>
        let sym : Symbol :=
          { name := d.name, symbol_type := .Variable,
            type_info := { ti with is_mutable := false },
            is_initialized := false, declaration_line := d.line }
        (.ok (), st.setCur (Scope.set st.cur d.name sym))

/-- visit_var_decl (lines 204-243): like let, but the initializer is
mandatory and the stored symbol is mutable. -/
def visit_var_decl (st : AState) (d : VarDeclarationNode) :
    Except AnalyzerError Unit × AState :=
  if Scope.contains st.cur d.name then
    (.error (.semantic ("Duplicate variable name '" ++ d.name ++ "'") d.line), st)
  else
    match resolve_annotation d.type_annotation with
    | .error e => (.error e, st)
    | .ok ti =>
      match d.initializer with
      | none => (.error (.semantic "var declaration requires initializer" d.line), st)
      | some ie =>
        let init_type := visit_expression ie
        if ti.kind = TypeKind.Auto then
          let sym : Symbol :=
            { name := d.name, symbol_type := .Variable,
              type_info := { init_type with is_mutable := true },
              is_initialized := true, declaration_line := d.line }
          (.ok (), st.setCur (Scope.set st.cur d.name sym))
        else if types_compatible ti init_type then
          let sym : Symbol :=
            { name := d.name, symbol_type := .Variable,
              type_info := { ti with is_mutable := true },
              is_initialized := true, declaration_line := d.line }
          (.ok (), st.setCur (Scope.set st.cur d.name sym))
        else
          (.error (.semantic "Type mismatch in var declaration" d.line), st)

/-- visit_const_decl (lines 245-284): like var (initializer mandatory), with
symbol kind Constant and an immutable stored symbol. -/
def visit_const_decl (st : AState) (d : ConstDeclarationNode) :
    Except AnalyzerError Unit × AState :=
  if Scope.contains st.cur d.name then
    (.error (.semantic ("Duplicate constant name '" ++ d.name ++ "'") d.line), st)
  else
    match resolve_annotation d.type_annotation with
    | .error e => (.error e, st)
    | .ok ti =>
      match d.initializer with
      | none => (.error (.semantic "const declaration requires initializer" d.line), st)
      | some ie =>
        let init_type := visit_expression ie
        if ti.kind = TypeKind.Auto then
          let sym : Symbol :=
            { name := d.name, symbol_type := .Constant,
              type_info := { init_type with is_mutable := false },
              is_initialized := true, declaration_line := d.line }
          (.ok (), st.setCur (Scope.set st.cur d.name sym))
        else if types_compatible ti init_type then
          let sym : Symbol :=
            { name := d.name, symbol_type := .Constant,
              type_info := { ti with is_mutable := false },
              is_initialized := true, declaration_line := d.line }
          (.ok (), st.setCur (Scope.set st.cur d.name sym))
        else
          (.error (.semantic "Type mismatch in const declaration" d.line), st)

/-- visit_parameter (lines 145-159): the symbol (including the parsed type,
which may throw) is built BEFORE the duplicate check, so an unknown
parameter type fails with the type error even for a duplicate name. -/
def visit_parameter (st : AState) (p : ParameterNode) :
    Except AnalyzerError Unit × AState :=
  match parse_type p.ty with
  | .error e => (.error e, st)
  | .ok ti =>
    if Scope.contains st.cur p.name then
      (.error (.semantic ("Duplicate parameter name '" ++ p.name ++ "'") p.line), st)
    else
      let sym : Symbol :=
        { name := p.name, symbol_type := .Variable, type_info := ti,
          is_initialized := true, declaration_line := p.line }
      (.ok (), st.setCur (Scope.set st.cur p.name sym))

/-- The parameter loop of visit_function (lines 132-134): fail-fast, state
threaded through. -/
def visit_params (st : AState) : List ParameterNode → Except AnalyzerError Unit × AState
  | [] => (.ok (), st)
  | p :: rest =>
      match visit_parameter st p with
      | (.error e, st') => (.error e, st')
      | (.ok _, st') => visit_params st' rest

mutual

/-- visit (lines 87-109): a null pointer is a silent no-op; the switch on
the kind tag routes declarations and functions to their handlers; kinds
WITHOUT a case (the source's switch has no default and ends with the
comment "Handle other node types...") fall through with no effect. -/
def visit (st : AState) (node : Option ASTNode) : Except AnalyzerError Unit × AState :=
  match node with
  | none => (.ok (), st)
  | some (.function name rt ps body line) => visit_function st name rt ps body line
  | some (.letDecl d) => visit_let_decl st d
  | some (.varDecl d) => visit_var_decl st d
  | some (.constDecl d) => visit_const_decl st d
  | some (.param _) => (.ok (), st)
  | some (.expr _ _) => (.ok (), st)

/-- visit_function (lines 111-143), with the function node's fields passed
directly. Note the source's straight-line shape: the `exit_scope()` call and
the `in_function = false` reset sit AFTER the body loop with no try/catch,
so a throw from any parameter or body statement propagates with the pushed
scope still in place. -/
def visit_function (st : AState) (name : String) (rt : String)
    (ps : List ParameterNode) (body : List (Option ASTNode)) (line : Int) :
    Except AnalyzerError Unit × AState :=
  if (find_symbol st name).isSome then
    (.error (.semantic ("Duplicate function name '" ++ name ++ "'") line), st)
  else
    match parse_type rt with
    | .error e => (.error e, st)
    | .ok rti =>
      let func_sym : Symbol :=
        { name := name, symbol_type := .Function, type_info := rti,
          is_initialized := true, declaration_line := line }
      let st1 := st.setCur (Scope.set st.cur name func_sym)
      let st2 := enter_scope { st1 with in_function := true, current_return_type := some rti }
      match visit_params st2 ps with
      | (.error e, st') => (.error e, st')
      | (.ok _, st3) =>
        match visit_body st3 body with
        | (.error e, st') => (.error e, st')
        | (.ok _, st4) =>
          match exit_scope st4 with
          | (.error e, st') => (.error e, st')
          | (.ok _, st5) => (.ok (), { st5 with in_function := false })

/-- The body loop of visit_function (lines 137-139): fail-fast, state
threaded through. -/
def visit_body (st : AState) (stmts : List (Option ASTNode)) :
    Except AnalyzerError Unit × AState :=
  match stmts with
  | [] => (.ok (), st)
  | s :: rest =>
      match visit st s with
      | (.error e, st') => (.error e, st')
      | (.ok _, st') => visit_body st' rest

end

/-- analyze (lines 60-62). -/
def analyze (st : AState) (root : Option ASTNode) : Except AnalyzerError Unit × AState :=
  visit st root

/-- The sixteen type spellings of parse_type's catalog, in source order. -/
def typeCatalog : List String :=
  ["i8", "u8", "i16", "u16", "i32", "u32", "i64", "u64",
   "i128", "u128", "f32", "f64", "str", "string", "bool", "auto"]

/-- Whether the dispatcher's switch has a case for this node's kind tag
(lines 90-106): Function, LetDeclaration, VarDeclaration, ConstDeclaration. -/
def handledKind : ASTNode → Bool
  | .function _ _ _ _ _ => true
  | .letDecl _ => true
  | .varDecl _ => true
  | .constDecl _ => true
  | .param _ => false
  | .expr _ _ => false

/-- `TypeInfo` of `i32` as parse_type returns it. -/
def i32ty : TypeInfo := ⟨.Int, 32, true, false⟩

/-- The AST src/main.cpp builds: `fn main() -> void { let a: i32 = 42; }`
(FunctionNode "main" with return-type spelling "void" at line 1; one let
declaration of `a` annotated `i32` with initializer IntegerLiteralNode(42)
at line 2). -/
def mainProgram : ASTNode :=
  .function "main" "void" []
    [some (.letDecl { name := "a", type_annotation := some "i32",
                      initializer := some (.integerLiteral 42), line := 2 })] 1

/-- The same program as `mainProgram` with the return-type spelling replaced
by the in-catalog `"i32"`, so that nothing in it violates a section-4 rule:
no redeclaration, known spellings, initializer present and of the annotated
type. -/
def typedMainProgram : ASTNode :=
  .function "main" "i32" []
    [some (.letDecl { name := "a", type_annotation := some "i32",
                      initializer := some (.integerLiteral 42), line := 2 })] 1

/-- The Function symbol visit_function registers for `typedMainProgram`. -/
def mainFnSym : Symbol :=
  { name := "main", symbol_type := .Function, type_info := i32ty,
    is_initialized := true, declaration_line := 1 }

/-- `fn f() -> i32 { var y; }`: the body's var declaration (no initializer)
fails, exercising the error path out of visit_function. -/
def leakProgram : ASTNode :=
  .function "f" "i32" []
    [some (.varDecl { name := "y", type_annotation := none,
                      initializer := none, line := 2 })] 1

/-- The Function symbol visit_function registers for `leakProgram`. -/
def fFnSym : Symbol :=
  { name := "f", symbol_type := .Function, type_info := i32ty,
    is_initialized := true, declaration_line := 1 }

/-- `fn g() -> bool { let x; let x; }`: a same-scope redeclaration, the
second at line 3. -/
def dupLetProgram : ASTNode :=
  .function "g" "bool" []
    [some (.letDecl { name := "x", type_annotation := none,
                      initializer := none, line := 2 }),
     some (.letDecl { name := "x", type_annotation := none,
                      initializer := none, line := 3 })] 1

/-- `fn g2() -> i7 {}`: a function whose return-type spelling is outside
the catalog. -/
def unknownRetProgram : ASTNode :=
  .function "g2" "i7" [] [] 1

/-- The symbol visit_let_decl registers for a let declaration that has no
annotation and an initializer: the stub resolver's `Unknown` type is
adopted by inference, `is_mutable` is forced off, `is_initialized` on. -/
def innerLetSym (d : LetDeclarationNode) : Symbol :=
  { name := d.name, symbol_type := .Variable,
    type_info := ⟨.Unknown, 0, false, false⟩,
    is_initialized := true, declaration_line := d.line }

/-- The symbol visit_let_decl registers for a let declaration without an
initializer whose annotation resolved to `ti`. -/
def uninitLetSym (d : LetDeclarationNode) (ti : TypeInfo) : Symbol :=
  { name := d.name, symbol_type := .Variable,
    type_info := { ti with is_mutable := false },
    is_initialized := false, declaration_line := d.line }

/-- An `i32` Variable symbol bound at line 1, used as an outer-scope binding
in concrete scope stacks. -/
def xOuterSym : Symbol :=
  { name := "x", symbol_type := .Variable, type_info := i32ty,
    is_initialized := true, declaration_line := 1 }

/-- An `i32` Function symbol named `f` at line 1, used as an outer-scope
callable binding. -/
def fOuterFnSym : Symbol :=
  { name := "f", symbol_type := .Function, type_info := i32ty,
    is_initialized := true, declaration_line := 1 }

/-- Writing a binding through `operator[]` makes it the one `find` returns
for that name. -/
theorem Scope.find_set_self (s : Scope) (name : String) (sym : Symbol) :
    Scope.find (Scope.set s name sym) name = some sym := by
  induction s with
  | nil => simp [Scope.set, Scope.find]
  | cons p rest ih =>
    obtain ⟨n, s0⟩ := p
    by_cases h : n = name
    · simp [Scope.set, Scope.find, h]
    · simp [Scope.set, Scope.find, h, ih]

/-- C1: the claim says that running analyze on the AST for
`fn main() -> void { let a: i32 = 42; }` (exactly the tree src/main.cpp
builds) returns success. It does not: `"void"` is not in parse_type's
catalog, so visit_function's very first action on the return type throws
`std::runtime_error("Unknown type: void")` — an exception src/main.cpp does
not even catch — with the analyzer still in its initial state. -/
theorem main_program_rejected :
    analyze initState (some mainProgram) =
      (.error (.runtime "Unknown type: void"), initState) := by
  simp [analyze, visit, visit_function, mainProgram, find_symbol, find_symbol_in,
        initState, parse_type, Scope.find]

/-- C2: the claim says every AST with no redeclaration and no section-4
type violation is accepted. Counter-evidence on the code:
`fn main() -> i32 { let a: i32 = 42; }` breaks no section-4 rule, yet the
stub visit_expression types the initializer as `Unknown`, which
types_compatible rejects against `i32`, so analyze fails with the
TypeMismatch error at line 2 (and leaks the function scope on the way out). -/
theorem well_typed_program_rejected :
    analyze initState (some typedMainProgram) =
      (.error (.semantic "Type mismatch in let declaration" 2),
       { scope_stack := [[], [("main", mainFnSym)]],
         current_return_type := some i32ty, in_function := true }) := by
  simp [analyze, visit, visit_function, visit_body, visit_params, visit_let_decl,
        typedMainProgram, find_symbol, find_symbol_in, initState, parse_type,
        Scope.find, Scope.contains, Scope.set, AState.cur, AState.setCur,
        enter_scope, exit_scope, resolve_annotation, visit_expression,
        types_compatible, mainFnSym, i32ty]

/-- C3: the claim says the scope pushed for a function body is popped even
when a body statement fails, so the stack depth after analyze equals the
depth before. On the code the error path skips `exit_scope()` entirely:
analyzing `fn f() -> i32 { var y; }` from the one-scope initial state fails
(MissingInitializer at line 2) and returns with TWO scopes on the stack, the
function scope still pushed and `in_function` still set. -/
theorem scope_leak_on_body_error :
    analyze initState (some leakProgram) =
      (.error (.semantic "var declaration requires initializer" 2),
       { scope_stack := [[], [("f", fFnSym)]],
         current_return_type := some i32ty, in_function := true }) ∧
    initState.scope_stack.length = 1 ∧
    ({ scope_stack := [[], [("f", fFnSym)]],
       current_return_type := some i32ty, in_function := true } : AState).scope_stack.length = 2 := by
  refine ⟨?_, rfl, rfl⟩
  simp [analyze, visit, visit_function, visit_body, visit_params, visit_var_decl,
        leakProgram, find_symbol, find_symbol_in, initState, parse_type,
        Scope.find, Scope.contains, Scope.set, AState.cur, AState.setCur,
        enter_scope, exit_scope, resolve_annotation, visit_expression,
        types_compatible, fFnSym, i32ty]

/-- C4 counterexample: the claim says a node whose kind has no registered
handler fails with an UnhandledNodeKind error. On the code, visiting an
integer-literal expression node returns success with the analyzer state
untouched — no error of any kind is raised. -/
theorem unhandled_kind_skipped_cx :
    visit initState (some (.expr (.integerLiteral 42) 5)) = (.ok (), initState) := by
  simp [visit]

/-- C4 (amended): visiting any node whose kind tag has no case in the
dispatcher's switch (any kind other than Function, LetDeclaration,
VarDeclaration, ConstDeclaration) returns successfully with no effect on
the analyzer state — the source's switch has no default and silently skips
such nodes. -/
theorem unhandled_kind_is_noop (st : AState) (n : ASTNode)
    (h : handledKind n = false) :
    visit st (some n) = (.ok (), st) := by
  cases n <;> simp_all [handledKind, visit]

/-- C4 witness: a Parameter node reaching the dispatcher is skipped. -/
theorem unhandled_kind_is_noop_witness :
    visit initState (some (.param { name := "p", ty := "i32", line := 1 })) =
      (.ok (), initState) :=
  unhandled_kind_is_noop initState (.param { name := "p", ty := "i32", line := 1 }) rfl

/-- C5: parse_type succeeds on exactly the sixteen catalog spellings,
returning the source's TypeInfo for each (kind, width, signedness as in
lines 293-308), and any spelling outside the catalog fails with the
unknown-type error naming that spelling. -/
theorem parse_type_catalog :
    (parse_type "i8" = .ok ⟨.Int, 8, true, false⟩ ∧
     parse_type "u8" = .ok ⟨.Int, 8, false, false⟩ ∧
     parse_type "i16" = .ok ⟨.Int, 16, true, false⟩ ∧
     parse_type "u16" = .ok ⟨.Int, 16, false, false⟩ ∧
     parse_type "i32" = .ok ⟨.Int, 32, true, false⟩ ∧
     parse_type "u32" = .ok ⟨.Int, 32, false, false⟩ ∧
     parse_type "i64" = .ok ⟨.Int, 64, true, false⟩ ∧
     parse_type "u64" = .ok ⟨.Int, 64, false, false⟩ ∧
     parse_type "i128" = .ok ⟨.Int, 128, true, false⟩ ∧
     parse_type "u128" = .ok ⟨.Int, 128, false, false⟩ ∧
     parse_type "f32" = .ok ⟨.Float, 32, true, false⟩ ∧
     parse_type "f64" = .ok ⟨.Float, 64, true, false⟩ ∧
     parse_type "str" = .ok ⟨.String, 0, false, false⟩ ∧
     parse_type "string" = .ok ⟨.String, 0, false, false⟩ ∧
     parse_type "bool" = .ok ⟨.Bool, 0, false, false⟩ ∧
     parse_type "auto" = .ok ⟨.Auto, 0, false, false⟩) ∧
    (∀ s : String, s ∉ typeCatalog →
       parse_type s = .error (.runtime ("Unknown type: " ++ s))) := by
  constructor
  · exact ⟨rfl, rfl, rfl, rfl, rfl, rfl, rfl, rfl, rfl, rfl, rfl, rfl, rfl, rfl, rfl, rfl⟩
  · intro s hs
    simp only [typeCatalog, List.mem_cons, List.not_mem_nil, or_false, not_or] at hs
    obtain ⟨h1, h2, h3, h4, h5, h6, h7, h8, h9, h10, h11, h12, h13, h14, h15, h16⟩ := hs
    simp [parse_type, h1, h2, h3, h4, h5, h6, h7, h8,
          h9, h10, h11, h12, h13, h14, h15, h16]

/-- C5 witness: the out-of-catalog spelling "i7" fails with the
unknown-type error. -/
theorem parse_type_catalog_witness :
    parse_type "i7" = .error (.runtime ("Unknown type: " ++ "i7")) :=
  parse_type_catalog.2 "i7" (by simp [typeCatalog])

/-- C6: with the innermost scope `c`, (1) a let declaration whose name `c`
already binds fails with the duplicate-symbol error at the new
declaration's line, leaving the state untouched; (2) if `c` does not bind
the name but an outer scope does (the binding `osym` that find_symbol
resolves before the declaration), an otherwise-plain let declaration of the
same name (no annotation, an initializer) succeeds, and find_symbol — which
scans innermost to outermost and returns the first match — afterwards
resolves the name to the new inner symbol. -/
theorem let_duplicate_and_shadowing (c : Scope) (rest : List Scope) (st : AState)
    (d : LetDeclarationNode) (ie : ExpressionNode) (osym : Symbol)
    (hstack : st.scope_stack = c :: rest) :
    (Scope.contains c d.name = true →
      visit_let_decl st d =
        (.error (.semantic ("Duplicate variable name '" ++ d.name ++ "'") d.line), st)) ∧
    (Scope.contains c d.name = false →
     find_symbol st d.name = some osym →
     d.type_annotation = none →
     d.initializer = some ie →
       visit_let_decl st d =
         (.ok (), { st with scope_stack := Scope.set c d.name (innerLetSym d) :: rest }) ∧
       find_symbol { st with scope_stack := Scope.set c d.name (innerLetSym d) :: rest } d.name
         = some (innerLetSym d)) := by
  constructor
  · intro h
    simp [visit_let_decl, AState.cur, hstack, h]
  · intro h _houter hann hinit
    constructor
    · simp [visit_let_decl, AState.cur, AState.setCur, hstack, h, hann, hinit,
            resolve_annotation, visit_expression, innerLetSym]
    · simp [find_symbol, find_symbol_in, Scope.find_set_self]

/-- The let declaration `let x;` at line 3, redeclaring a bound `x`. -/
def dupXDecl : LetDeclarationNode :=
  { name := "x", type_annotation := none, initializer := none, line := 3 }

/-- The let declaration `let x = 1;` (no annotation) at line 7, shadowing an
outer `x`. -/
def shadowXDecl : LetDeclarationNode :=
  { name := "x", type_annotation := none,
    initializer := some (.integerLiteral 1), line := 7 }

/-- A one-scope state whose (only, hence current) scope binds `x`. -/
def dupXState : AState :=
  { scope_stack := [[("x", xOuterSym)]], current_return_type := none, in_function := false }

/-- A two-scope state: empty inner scope, outer scope binding `x`. -/
def shadowXState : AState :=
  { scope_stack := [[], [("x", xOuterSym)]], current_return_type := none, in_function := false }

/-- `shadowXState` after the shadowing declaration registered its symbol in
the inner scope. -/
def shadowXStateAfter : AState :=
  { scope_stack := [Scope.set [] "x" (innerLetSym shadowXDecl), [("x", xOuterSym)]],
    current_return_type := none, in_function := false }

/-- C6 witness: at a state whose current scope binds `x`, a second let of
`x` fails at its line 3; at a two-scope state whose outer scope binds `x`,
the shadowing let succeeds and the inner binding is found first. -/
theorem let_duplicate_and_shadowing_witness :
    (visit_let_decl dupXState dupXDecl =
      (.error (.semantic ("Duplicate variable name '" ++ "x" ++ "'") 3), dupXState)) ∧
    (visit_let_decl shadowXState shadowXDecl = (.ok (), shadowXStateAfter) ∧
     find_symbol shadowXStateAfter "x" = some (innerLetSym shadowXDecl)) :=
  ⟨(let_duplicate_and_shadowing [("x", xOuterSym)] [] dupXState dupXDecl
      (.integerLiteral 1) xOuterSym rfl).1 rfl,
   (let_duplicate_and_shadowing [] [[("x", xOuterSym)]] shadowXState shadowXDecl
      (.integerLiteral 1) xOuterSym rfl).2
     rfl (by simp [find_symbol, find_symbol_in, Scope.find, shadowXState, shadowXDecl, xOuterSym]) rfl rfl⟩

/-- C7 counterexample: the claim says a var declaration without an
initializer fails with MissingInitializer regardless of annotation. With the
out-of-catalog annotation "i7", `var y: i7;` instead fails on the annotation
first: visit_var_decl parses the annotation BEFORE checking the initializer,
so the failure is the (line-less) unknown-type error, not the
missing-initializer SemanticError. -/
theorem var_missing_init_cx :
    visit_var_decl initState
        { name := "y", type_annotation := some "i7", initializer := none, line := 3 } =
      (.error (.runtime "Unknown type: i7"), initState) ∧
    (∀ (msg : String) (line : Int),
       (AnalyzerError.runtime "Unknown type: i7") ≠ .semantic msg line) := by
  constructor
  · simp [visit_var_decl, AState.cur, initState, Scope.contains, Scope.find,
          resolve_annotation, parse_type]
  · intro msg line
    simp

/-- C7 (amended): provided the name is fresh in the current scope and the
annotation (when present) resolves, a var or const declaration without an
initializer fails with the missing-initializer error at the declaration's
line, while a let declaration without an initializer succeeds and registers
its symbol with `is_initialized = false`; an out-of-catalog annotation
instead fails with the unknown-type error before the initializer check. -/
theorem missing_init_rules (st : AState) (c : Scope) (rest : List Scope)
    (dv : VarDeclarationNode) (dc : ConstDeclarationNode) (dl : LetDeclarationNode)
    (tiv tic til : TypeInfo)
    (hstack : st.scope_stack = c :: rest) :
    (Scope.contains c dv.name = false →
     resolve_annotation dv.type_annotation = .ok tiv →
     dv.initializer = none →
       visit_var_decl st dv =
         (.error (.semantic "var declaration requires initializer" dv.line), st)) ∧
    (Scope.contains c dc.name = false →
     resolve_annotation dc.type_annotation = .ok tic →
     dc.initializer = none →
       visit_const_decl st dc =
         (.error (.semantic "const declaration requires initializer" dc.line), st)) ∧
    (Scope.contains c dl.name = false →
     resolve_annotation dl.type_annotation = .ok til →
     dl.initializer = none →
       visit_let_decl st dl =
         (.ok (), { st with scope_stack := Scope.set c dl.name (uninitLetSym dl til) :: rest }) ∧
       (uninitLetSym dl til).is_initialized = false ∧
       find_symbol { st with scope_stack := Scope.set c dl.name (uninitLetSym dl til) :: rest }
           dl.name = some (uninitLetSym dl til)) := by
  refine ⟨?_, ?_, ?_⟩
  · intro h hann hinit
    simp [visit_var_decl, AState.cur, hstack, h, hann, hinit]
  · intro h hann hinit
    simp [visit_const_decl, AState.cur, hstack, h, hann, hinit]
  · intro h hann hinit
    refine ⟨?_, rfl, ?_⟩
    · simp [visit_let_decl, AState.cur, AState.setCur, hstack, h, hann, hinit, uninitLetSym]
    · simp [find_symbol, find_symbol_in, Scope.find_set_self]

/-- C7 witness: at the fresh one-scope state, `var v1: i32;` and
`const c1;` fail with their missing-initializer errors, while
`let l1: bool;` succeeds with an uninitialized symbol. -/
theorem missing_init_rules_witness :
    (visit_var_decl initState
        { name := "v1", type_annotation := some "i32", initializer := none, line := 2 } =
       (.error (.semantic "var declaration requires initializer" 2), initState)) ∧
    (visit_const_decl initState
        { name := "c1", type_annotation := none, initializer := none, line := 3 } =
       (.error (.semantic "const declaration requires initializer" 3), initState)) ∧
    (visit_let_decl initState
        { name := "l1", type_annotation := some "bool", initializer := none, line := 4 } =
       (.ok (), { initState with scope_stack :=
          [Scope.set [] "l1" (uninitLetSym
             { name := "l1", type_annotation := some "bool", initializer := none, line := 4 }
             ⟨.Bool, 0, false, false⟩)] }) ∧
     (uninitLetSym
        { name := "l1", type_annotation := some "bool", initializer := none, line := 4 }
        ⟨.Bool, 0, false, false⟩).is_initialized = false ∧
     find_symbol { initState with scope_stack :=
          [Scope.set [] "l1" (uninitLetSym
             { name := "l1", type_annotation := some "bool", initializer := none, line := 4 }
             ⟨.Bool, 0, false, false⟩)] } "l1"
       = some (uninitLetSym
           { name := "l1", type_annotation := some "bool", initializer := none, line := 4 }
           ⟨.Bool, 0, false, false⟩)) := by
  have h := missing_init_rules initState [] []
    { name := "v1", type_annotation := some "i32", initializer := none, line := 2 }
    { name := "c1", type_annotation := none, initializer := none, line := 3 }
    { name := "l1", type_annotation := some "bool", initializer := none, line := 4 }
    ⟨.Int, 32, true, false⟩ ⟨.Auto, 0, false, false⟩ ⟨.Bool, 0, false, false⟩ rfl
  exact ⟨h.1 rfl rfl rfl, h.2.1 rfl rfl rfl, h.2.2 rfl rfl rfl⟩

/-- C8 counterexample: the claim says every analyze failure carries an
error kind, message AND 1-based line — including the unknown-type and
scope-underflow errors. Analyzing `fn g2() -> i7 {}` fails via
`std::runtime_error`, which carries only a message: the error value has no
line member at all. -/
theorem unknown_type_failure_lacks_line_cx :
    analyze initState (some unknownRetProgram) =
      (.error (.runtime "Unknown type: i7"), initState) ∧
    AnalyzerError.lineOf (.runtime "Unknown type: i7") = none := by
  constructor
  · simp [analyze, visit, visit_function, unknownRetProgram, find_symbol,
          find_symbol_in, initState, parse_type, Scope.find]
  · rfl

/-- C8 (amended): failures raised as SemanticError carry a message and the
offending construct's line (the duplicate-x program fails at line 3 and the
error's line member holds 3), but the two internal `std::` exception paths
carry only a message: the unknown-type failure (`fn g2() -> i7 {}`) and the
scope-underflow failure (exit_scope on an empty stack) both produce error
values with no line. -/
theorem error_line_inventory :
    ((analyze initState (some dupLetProgram)).1 =
       .error (.semantic ("Duplicate variable name '" ++ "x" ++ "'") 3) ∧
     AnalyzerError.lineOf (.semantic ("Duplicate variable name '" ++ "x" ++ "'") 3) = some 3) ∧
    ((analyze initState (some unknownRetProgram)).1 = .error (.runtime "Unknown type: i7") ∧
     AnalyzerError.lineOf (.runtime "Unknown type: i7") = none) ∧
    (exit_scope { scope_stack := [], current_return_type := none, in_function := false } =
       (.error (.logic "Scope stack underflow"),
        { scope_stack := [], current_return_type := none, in_function := false }) ∧
     AnalyzerError.lineOf (.logic "Scope stack underflow") = none) := by
  refine ⟨⟨?_, rfl⟩, ⟨?_, rfl⟩, ⟨?_, rfl⟩⟩
  · simp [analyze, visit, visit_function, visit_body, visit_params, visit_let_decl,
          dupLetProgram, find_symbol, find_symbol_in, initState, parse_type,
          Scope.find, Scope.contains, Scope.set, AState.cur, AState.setCur,
          enter_scope, exit_scope, resolve_annotation, visit_expression]
  · simp [analyze, visit, visit_function, unknownRetProgram, find_symbol,
          find_symbol_in, initState, parse_type, Scope.find]
  · simp [exit_scope]

/-- C9: a null AST root passed to analyze — and equally a null statement
pointer reaching the dispatcher from a function body — returns success
immediately, leaving the scope stack and every other analyzer member
exactly as they were. -/
theorem null_node_is_noop (st : AState) :
    analyze st none = (.ok (), st) ∧ visit st none = (.ok (), st) := by
  constructor
  · simp [analyze, visit]
  · simp [visit]

/-- C10: with the current scope not binding `d.name` but an outer scope
binding it to a Function symbol, an otherwise-plain let declaration of that
name succeeds (the duplicate check consults only the current scope and
never looks at the outer binding's kind), afterwards find_symbol resolves
the name to the new Variable symbol; by contrast a FUNCTION declaration of
the same name fails the whole-chain duplicate check at once, whatever its
signature. -/
theorem var_shadows_outer_function (c : Scope) (rest : List Scope) (st : AState)
    (d : LetDeclarationNode) (fsym : Symbol) (ie : ExpressionNode)
    (hstack : st.scope_stack = c :: rest)
    (hcur : Scope.contains c d.name = false)
    (houter : find_symbol_in rest d.name = some fsym)
    (_hfn : fsym.symbol_type = SymbolType.Function)
    (hann : d.type_annotation = none)
    (hinit : d.initializer = some ie) :
    visit_let_decl st d =
      (.ok (), { st with scope_stack := Scope.set c d.name (innerLetSym d) :: rest }) ∧
    find_symbol { st with scope_stack := Scope.set c d.name (innerLetSym d) :: rest } d.name
      = some (innerLetSym d) ∧
    (innerLetSym d).symbol_type = SymbolType.Variable ∧
    (∀ (rt : String) (ps : List ParameterNode) (body : List (Option ASTNode)) (line : Int),
       visit_function st d.name rt ps body line =
         (.error (.semantic ("Duplicate function name '" ++ d.name ++ "'") line), st)) := by
  have hfind : find_symbol st d.name = some fsym := by
    have hnone : Scope.find c d.name = none := by
      simpa [Scope.contains] using hcur
    simp [find_symbol, find_symbol_in, hstack, hnone, houter]
  refine ⟨?_, ?_, rfl, ?_⟩
  · simp [visit_let_decl, AState.cur, AState.setCur, hstack, hcur, hann, hinit,
          resolve_annotation, visit_expression, innerLetSym]
  · simp [find_symbol, find_symbol_in, Scope.find_set_self]
  · intro rt ps body line
    simp [visit_function, hfind]

/-- The let declaration `let f = 1;` at line 7, shadowing the outer
function `f`. -/
def shadowFDecl : LetDeclarationNode :=
  { name := "f", type_annotation := none,
    initializer := some (.integerLiteral 1), line := 7 }

/-- A two-scope state: empty inner scope, outer (global) scope binding the
function symbol `f`. -/
def shadowFState : AState :=
  { scope_stack := [[], [("f", fOuterFnSym)]],
    current_return_type := some i32ty, in_function := true }

/-- `shadowFState` after `let f = 1;` registered its symbol in the inner
scope. -/
def shadowFStateAfter : AState :=
  { scope_stack := [Scope.set [] "f" (innerLetSym shadowFDecl), [("f", fOuterFnSym)]],
    current_return_type := some i32ty, in_function := true }

/-- C10 witness: inside a function body whose global scope binds the
function `f`, `let f = 1;` succeeds, lookup then yields the new Variable
symbol, and a nested function declaration named `f` would fail the
whole-chain check. -/
theorem var_shadows_outer_function_witness :
    visit_let_decl shadowFState shadowFDecl = (.ok (), shadowFStateAfter) ∧
    find_symbol shadowFStateAfter "f" = some (innerLetSym shadowFDecl) ∧
    (innerLetSym shadowFDecl).symbol_type = SymbolType.Variable ∧
    (∀ (rt : String) (ps : List ParameterNode) (body : List (Option ASTNode)) (line : Int),
       visit_function shadowFState "f" rt ps body line =
         (.error (.semantic ("Duplicate function name '" ++ "f" ++ "'") line), shadowFState)) :=
  var_shadows_outer_function [] [[("f", fOuterFnSym)]] shadowFState shadowFDecl
    fOuterFnSym (.integerLiteral 1) rfl rfl
    (by simp [find_symbol_in, Scope.find, fOuterFnSym, shadowFDecl]) rfl rfl rfl

end SemanticsAnalyzer
